import Mathlib

/-!
A shallow embedding of the query-orchestration pipeline of `backend/app.py`:
the search helper `perform_search`, the content assembler `_build_content_parts`,
the non-streaming and streaming pipelines `process_query_non_streaming` /
`process_query_streaming`, and the websocket delivery loop `websocket_endpoint`.

Python strings are modelled as Lean `String`; Python truthiness of an optional
string (`None` and `""` are falsy) as `optTruthy`; external capabilities
(base64 decoding, OCR, the Google CSE call, the Gemini backend) as oracle
function parameters; a Python exception as the `Except.error` / `Option.some`
failure branch of the corresponding oracle.
-/

namespace AIAgent

/-- Python `needle in hay` on strings: substring containment. -/
def strContains (hay needle : String) : Bool :=
  decide (needle.data <:+: hay.data)

/-- Python `s.startswith(pre)`. -/
def strStartsWith (s pre : String) : Bool :=
  pre.data.isPrefixOf s.data

/-- Python `s.lower()` (ASCII case folding, which covers every keyword used). -/
def pyLower (s : String) : String :=
  ⟨s.data.map Char.toLower⟩

/-- Python `s[:n]`: the first `n` characters of `s`. -/
def pyTake (s : String) (n : Nat) : String :=
  ⟨s.data.take n⟩

/-- Python `s.split(",", 1)[1]`: everything after the first comma. -/
def afterFirstComma (s : String) : String :=
  ⟨(s.data.dropWhile (fun c => c ≠ ',')).drop 1⟩

/-- Python truthiness of a string: `""` is falsy. -/
def strTruthy (s : String) : Bool :=
  !s.data.isEmpty

/-- Python truthiness of an optional string: `None` and `""` are falsy. -/
def optTruthy : Option String → Bool
  | some s => strTruthy s
  | none => false

/-- Python `", ".join`-style joining (here used with separator `"\n"`). -/
def pyJoin (sep : String) : List String → String
  | [] => ""
  | [s] => s
  | s :: rest => s ++ sep ++ pyJoin sep rest

/-- One item of the Google CSE response: each field may be missing. -/
structure SearchItem where
  title : Option String
  snippet : Option String
  link : Option String
deriving DecidableEq

/-- One element of the content sequence passed to the generation backend:
a text part, or an inline-binary part carrying a mime type and raw bytes. -/
inductive ContentPart where
  | text : String → ContentPart
  | inlineData : String → List Nat → ContentPart
deriving DecidableEq

/-- The module-level search credentials `GOOGLE_API_KEY` / `GOOGLE_CSE_ID`
(`None` models an unset environment variable). -/
structure SearchConfig where
  apiKey : Option String
  cseId : Option String

/-- The formatted block for one search result (`app.py` lines 113-119):
`item.get("title", "Untitled")`, `item.get("snippet", "")`, `item.get("link", "")`. -/
def formatResult (idx : Nat) (item : SearchItem) : String :=
  "**Result " ++ toString idx ++ "**:\n- **Title**: " ++ item.title.getD "Untitled" ++
    "\n- **Snippet**: " ++ item.snippet.getD "" ++
    "\n- **Source**: [" ++ item.link.getD "" ++ "](" ++ item.link.getD "" ++ ")\n"

/-- `formatted_results`: each item rendered with its 1-based rank. -/
def formatResults (items : List SearchItem) : List String :=
  (items.enumFrom 1).map (fun p => formatResult p.1 p.2)

/-- `perform_search` (`app.py` lines 105-123).  `cse` is the external
Google Custom Search call: `Except.error` models the call raising. -/
def perform_search (cfg : SearchConfig) (cse : String → Except String (List SearchItem))
    (query : String) : String :=
  if !(optTruthy cfg.apiKey) || !(optTruthy cfg.cseId) then
    "Search unavailable: Google CSE is not configured."
  else
    match cse query with
    | Except.error _ => "Search unavailable due to an error."
    | Except.ok items =>
      let formatted_results := formatResults items
      if formatted_results.isEmpty then "No results found."
      else pyJoin "\n" formatted_results

/-- The inbound attachment dictionary `{ data, mime }`; each key may be absent. -/
structure AttachmentDict where
  data : Option String
  mime : Option String
deriving DecidableEq

/-- The fixed system-instruction text (`app.py` lines 127-133). -/
def systemInstruction : String :=
  "You are a helpful coding assistant. Always respond in Markdown.\n- When including code, use fenced code blocks with the correct language tag (e.g., ```python, ```html).\n- For multi-line code, never inline it; use fenced blocks only.\n- Keep prose concise; if code is primary, start with a short title then the code block.\n- Do not wrap code in a single paragraph.\n\n"

/-- The text part announcing OCR output (`app.py` line 153). -/
def ocrPrefixText : String :=
  "\n\nThe following is text OCR\x27ed from the attachment (may be imperfect):\n"

/-- The instruction part appended after a decoded attachment (`app.py` line 155). -/
def considerText : String :=
  "Consider the attached file when answering."

/-- The fallback text for an empty non-streaming response (`app.py` line 204). -/
def emptyResponseMsg : String :=
  "Sorry, I couldn\x27t generate a response. Please try again."

/-- The fallback fragment for an empty streaming chunk (`app.py` line 228). -/
def emptyChunkMsg : String :=
  "Sorry, I couldn\x27t generate a response chunk. Please try again."

/-- `_build_content_parts` (`app.py` lines 125-158).  `b64decode` is
`base64.b64decode` (`Except.error` models it raising, which the source
catches, keeping only the parts appended so far); `ocr` is `_try_ocr_bytes`,
which never raises and returns `None` on any failure or absent capability. -/
def _build_content_parts (b64decode : String → Except String (List Nat))
    (ocr : List Nat → String → Option String)
    (query : String) (attachment : Option AttachmentDict) : List ContentPart :=
  let parts : List ContentPart :=
    [ContentPart.text systemInstruction, ContentPart.text ("User query: " ++ query)]
  match attachment with
  | none => parts
  | some a =>
    if optTruthy a.data && optTruthy a.mime then
      let data_url := a.data.getD ""
      if strStartsWith data_url "data:" && strContains data_url ";base64," then
        let mime := a.mime.getD ""
        let b64 := afterFirstComma data_url
        match b64decode b64 with
        | Except.error _ => parts
        | Except.ok raw =>
          let parts := parts ++ [ContentPart.inlineData mime raw]
          let parts :=
            match ocr raw mime with
            | some ocr_text =>
              if strTruthy ocr_text then
                parts ++ [ContentPart.text ocrPrefixText,
                          ContentPart.text (pyTake ocr_text 8000)]
              else parts
            | none => parts
          parts ++ [ContentPart.text considerText]
      else parts
    else parts

/-- The intent classifier inlined at `app.py` lines 191-192 and 212-213:
case-insensitive substring match against the fixed keyword set. -/
def needsSearch (query : String) : Bool :=
  ["what is", "latest", "news", "find", "search"].any
    (fun keyword => strContains (pyLower query) keyword)

/-- The content sequence assembled by `process_query_non_streaming`
(`app.py` lines 191-197) before the backend is invoked. -/
def nonStreamingParts (b64decode : String → Except String (List Nat))
    (ocr : List Nat → String → Option String)
    (cfg : SearchConfig) (cse : String → Except String (List SearchItem))
    (query : String) (attachment : Option AttachmentDict) : List ContentPart :=
  let search_keywords := ["what is", "latest", "news", "find", "search"]
  let needs_search := search_keywords.any (fun keyword => strContains (pyLower query) keyword)
  let base_parts := _build_content_parts b64decode ocr query attachment
  if needs_search then
    base_parts ++ [ContentPart.text ("\n\nSearch results:\n" ++
      perform_search cfg cse query ++
      "\n\nProvide the answer now and include citations as [source: url] where relevant.")]
  else base_parts

/-- The content sequence assembled by `process_query_streaming`
(`app.py` lines 212-218) before the backend is invoked. -/
def streamingParts (b64decode : String → Except String (List Nat))
    (ocr : List Nat → String → Option String)
    (cfg : SearchConfig) (cse : String → Except String (List SearchItem))
    (query : String) (attachment : Option AttachmentDict) : List ContentPart :=
  let search_keywords := ["what is", "latest", "news", "find", "search"]
  let needs_search := search_keywords.any (fun keyword => strContains (pyLower query) keyword)
  let base_parts := _build_content_parts b64decode ocr query attachment
  if needs_search then
    base_parts ++ [ContentPart.text ("\n\nSearch results:\n" ++
      perform_search cfg cse query ++
      "\n\nProvide the answer now and include citations as [source: url] where relevant.")]
  else base_parts

/-- `process_query_non_streaming` (`app.py` lines 190-208).  `gen` is the
Gemini call: `Except.error` models it raising; `Except.ok t` a response whose
`.text` is `t` (`none` and `some ""` are both falsy in the source's check). -/
def process_query_non_streaming (b64decode : String → Except String (List Nat))
    (ocr : List Nat → String → Option String)
    (cfg : SearchConfig) (cse : String → Except String (List SearchItem))
    (gen : List ContentPart → Except String (Option String))
    (query : String) (attachment : Option AttachmentDict) : String :=
  let base_parts := nonStreamingParts b64decode ocr cfg cse query attachment
  match gen base_parts with
  | Except.error e => "Error processing query: " ++ e
  | Except.ok t =>
    if !(optTruthy t) then emptyResponseMsg
    else t.getD ""

/-- One chunk of the streaming Gemini response: `text` is `none` when the
chunk has no `text` attribute or a falsy one is indistinguishable from it
only through `optTruthy`, which is the sole check the source applies. -/
structure Chunk where
  text : Option String
deriving DecidableEq

/-- The behaviour of one streaming Gemini call: the chunks the iterator
yields, then optionally an exception raised at the call itself (with
`chunks = []`) or while iterating (after the listed chunks). -/
structure StreamResult where
  chunks : List Chunk
  failure : Option String
deriving DecidableEq

/-- `process_query_streaming` (`app.py` lines 211-231) as the finite list of
fragments the generator yields, in order. -/
def process_query_streaming (b64decode : String → Except String (List Nat))
    (ocr : List Nat → String → Option String)
    (cfg : SearchConfig) (cse : String → Except String (List SearchItem))
    (genStream : List ContentPart → StreamResult)
    (query : String) (attachment : Option AttachmentDict) : List String :=
  let base_parts := streamingParts b64decode ocr cfg cse query attachment
  let res := genStream base_parts
  res.chunks.map (fun chunk =>
      if optTruthy chunk.text then chunk.text.getD "" else emptyChunkMsg) ++
    (match res.failure with
     | some e => ["Error: " ++ e]
     | none => [])

/-- The JSON payload of one websocket message (`{ prompt, image, attachment }`). -/
structure WsPayload where
  prompt : Option String
  image : Option String
  attachment : Option AttachmentDict

/-- One inbound websocket request together with the per-request behaviour of
every external capability the pipeline consults while serving it.  `parsed`
is the outcome of `json.loads` on `raw`: `some` when it yields an object,
`none` when parsing (or attribute access on a non-object) raises. -/
structure WsRequest where
  raw : String
  parsed : Option WsPayload
  b64decode : String → Except String (List Nat)
  ocr : List Nat → String → Option String
  cse : String → Except String (List SearchItem)
  genStream : List ContentPart → StreamResult

/-- The request-parsing prelude of `websocket_endpoint` (`app.py` lines
240-254): extract prompt and attachment, mapping the legacy `image` field to
an attachment when no attachment was given. -/
def parseWsRequest (req : WsRequest) : String × Option AttachmentDict :=
  match req.parsed with
  | none => (req.raw, none)
  | some payload =>
    let query := payload.prompt.getD req.raw
    let image_data_url := payload.image
    let attachment := payload.attachment
    let attachment :=
      if optTruthy image_data_url && attachment.isNone then
        some { data := image_data_url, mime := some "image/*" }
      else attachment
    (query, attachment)

/-- One iteration of the websocket loop (`app.py` lines 256-258): forward
every fragment in order, then send the `"[END]"` terminator. -/
def handleWsRequest (cfg : SearchConfig) (req : WsRequest) : List String :=
  let parsedReq := parseWsRequest req
  process_query_streaming req.b64decode req.ocr cfg req.cse req.genStream
    parsedReq.1 parsedReq.2 ++ ["[END]"]

/-- One event observed by the websocket loop: a received text message, or a
transport exception (e.g. `receive_text` raising on disconnect) that escapes
to the outer handler (`app.py` lines 259-262). -/
inductive WsEvent where
  | msg : WsRequest → WsEvent
  | transportFailure : String → WsEvent

/-- `websocket_endpoint` (`app.py` lines 234-262) over a finite observation
of events: the sequence of texts sent to the client, and whether the handler
closed the connection.  A transport exception reaches the outer `except`,
which sends one `"Error: ..."` message and closes; an exhausted event list
models observation ending while the loop still waits for the next message. -/
def wsSession (cfg : SearchConfig) : List WsEvent → List String × Bool
  | [] => ([], false)
  | WsEvent.transportFailure e :: _ => (["Error: " ++ e], true)
  | WsEvent.msg req :: rest =>
    let tail := wsSession cfg rest
    (handleWsRequest cfg req ++ tail.1, tail.2)

/-! ## Structural lemmas about the content assembler -/

/-- Every branch of `_build_content_parts` returns the two fixed leading parts
followed by some (possibly empty) suffix. -/
theorem build_parts_shape (b64 : String → Except String (List Nat))
    (ocr : List Nat → String → Option String) (q : String) (att : Option AttachmentDict) :
    ∃ rest, _build_content_parts b64 ocr q att =
      ContentPart.text systemInstruction :: ContentPart.text ("User query: " ++ q) :: rest := by
  unfold _build_content_parts
  cases att with
  | none => exact ⟨[], rfl⟩
  | some a =>
    dsimp only
    split
    · split
      · match hb : b64 (afterFirstComma (a.data.getD "")) with
        | Except.error e => exact ⟨[], rfl⟩
        | Except.ok raw =>
          match ho : ocr raw (a.mime.getD "") with
          | some t =>
            by_cases ht : strTruthy t
            · exact ⟨[ContentPart.inlineData (a.mime.getD "") raw, ContentPart.text ocrPrefixText,
                ContentPart.text (pyTake t 8000), ContentPart.text considerText],
                by simp [ho, ht]⟩
            · exact ⟨[ContentPart.inlineData (a.mime.getD "") raw, ContentPart.text considerText],
                by simp [ho, ht]⟩
          | none =>
            exact ⟨[ContentPart.inlineData (a.mime.getD "") raw, ContentPart.text considerText],
              by simp [ho]⟩
      · exact ⟨[], rfl⟩
    · exact ⟨[], rfl⟩

/-- The exact part list once the attachment guard, the data-URI shape check and
the base64 decode all succeed. -/
theorem build_parts_decoded (b64 : String → Except String (List Nat))
    (ocr : List Nat → String → Option String) (q : String) (a : AttachmentDict)
    (raw : List Nat)
    (hg : (optTruthy a.data && optTruthy a.mime) = true)
    (hshape : (strStartsWith (a.data.getD "") "data:" &&
               strContains (a.data.getD "") ";base64,") = true)
    (hb : b64 (afterFirstComma (a.data.getD "")) = Except.ok raw) :
    _build_content_parts b64 ocr q (some a) =
      [ContentPart.text systemInstruction, ContentPart.text ("User query: " ++ q),
       ContentPart.inlineData (a.mime.getD "") raw] ++
      (match ocr raw (a.mime.getD "") with
       | some t => if strTruthy t then
            [ContentPart.text ocrPrefixText, ContentPart.text (pyTake t 8000)]
          else []
       | none => []) ++
      [ContentPart.text considerText] := by
  unfold _build_content_parts
  dsimp only
  simp only [hg, hshape, hb]
  match ho : ocr raw (a.mime.getD "") with
  | some t =>
    by_cases ht : strTruthy t <;> simp [ho, ht]
  | none => simp [ho]

/-- When the attachment guard fails, the data-URI shape check fails, or the
base64 decode raises, only the two fixed leading parts are produced. -/
theorem build_parts_undecoded (b64 : String → Except String (List Nat))
    (ocr : List Nat → String → Option String) (q : String) (a : AttachmentDict)
    (h : (optTruthy a.data && optTruthy a.mime) = false ∨
         (strStartsWith (a.data.getD "") "data:" &&
          strContains (a.data.getD "") ";base64,") = false ∨
         ∃ e, b64 (afterFirstComma (a.data.getD "")) = Except.error e) :
    _build_content_parts b64 ocr q (some a) =
      [ContentPart.text systemInstruction, ContentPart.text ("User query: " ++ q)] := by
  unfold _build_content_parts
  dsimp only
  rcases h with h | h | ⟨e, h⟩
  · simp [h]
  · simp [h]
  · simp [h]

/-! ## Length lemmas for the search formatter -/

theorem formatResult_length_pos (idx : Nat) (item : SearchItem) :
    0 < (formatResult idx item).length := by
  unfold formatResult
  simp only [String.length_append]
  have h : 0 < "**Result ".length := by decide
  omega

theorem pyJoin_cons_length_pos (sep x : String) (xs : List String)
    (hx : 0 < x.length) : 0 < (pyJoin sep (x :: xs)).length := by
  cases xs with
  | nil => simpa [pyJoin] using hx
  | cons y ys =>
    simp only [pyJoin, String.length_append]
    omega

/-! ## Claim theorems -/

/-- C10: for every pair (query, attachment) and every behaviour of the
external capabilities, the streaming and the non-streaming pipeline assemble
exactly the same content sequence before invoking the generation backend. -/
theorem streaming_nonstreaming_assemble_same_parts :
    ∀ (b64 : String → Except String (List Nat)) (ocr : List Nat → String → Option String)
      (cfg : SearchConfig) (cse : String → Except String (List SearchItem))
      (q : String) (att : Option AttachmentDict),
    streamingParts b64 ocr cfg cse q att = nonStreamingParts b64 ocr cfg cse q att := by
  intro b64 ocr cfg cse q att
  rfl

/-- C4: the non-streaming generation invoker is a total function into
renderable text: a backend exception becomes an error-prefixed message, a
response with no extractable text becomes the fixed fallback string, and in
every case the result is a non-empty string. -/
theorem nonstreaming_invoker_total_fallback :
    ∀ (b64 : String → Except String (List Nat)) (ocr : List Nat → String → Option String)
      (cfg : SearchConfig) (cse : String → Except String (List SearchItem))
      (gen : List ContentPart → Except String (Option String))
      (q : String) (att : Option AttachmentDict),
    (process_query_non_streaming b64 ocr cfg cse gen q att =
      match gen (nonStreamingParts b64 ocr cfg cse q att) with
      | Except.error e => "Error processing query: " ++ e
      | Except.ok t => if !(optTruthy t) then emptyResponseMsg else t.getD "") ∧
    0 < (process_query_non_streaming b64 ocr cfg cse gen q att).length := by
  intro b64 ocr cfg cse gen q att
  refine ⟨rfl, ?_⟩
  unfold process_query_non_streaming
  dsimp only
  cases h : gen (nonStreamingParts b64 ocr cfg cse q att) with
  | error e =>
    show 0 < ("Error processing query: " ++ e).length
    rw [String.length_append]
    have hp : 0 < "Error processing query: ".length := by decide
    omega
  | ok t =>
    match t with
    | none => decide
    | some s =>
      by_cases hs : strTruthy s
      · have hlen : 0 < s.length := by
          have hne : s.data ≠ [] := by
            simpa [strTruthy, List.isEmpty_iff] using hs
          exact List.length_pos.mpr hne
        simpa [optTruthy, hs] using hlen
      · have hm : 0 < emptyResponseMsg.length := by decide
        simpa [optTruthy, hs] using hm

/-- C7: the intent classifier returns true exactly when the lowercased query
contains one of the five fixed keywords as a substring; it is case-insensitive
on the examples, rejects keyword-free queries, and is precisely the condition
under which the pipeline appends the search-results part. -/
theorem intent_classifier_keyword_iff :
    ∀ q : String,
    (needsSearch q = true ↔
      ∃ k ∈ ["what is", "latest", "news", "find", "search"], k.data <:+: (pyLower q).data) ∧
    needsSearch "Latest news" = needsSearch "latest news" ∧
    needsSearch "Latest news" = true ∧
    needsSearch "hello" = false ∧
    (∀ (b64 : String → Except String (List Nat)) (ocr : List Nat → String → Option String)
       (cfg : SearchConfig) (cse : String → Except String (List SearchItem))
       (att : Option AttachmentDict),
      streamingParts b64 ocr cfg cse q att =
        if needsSearch q then
          _build_content_parts b64 ocr q att ++ [ContentPart.text ("\n\nSearch results:\n" ++
            perform_search cfg cse q ++
            "\n\nProvide the answer now and include citations as [source: url] where relevant.")]
        else _build_content_parts b64 ocr q att) := by
  intro q
  refine ⟨?_, by decide, by decide, by decide, ?_⟩
  · simp [needsSearch, strContains, List.any_eq_true]
  · intro b64 ocr cfg cse att
    rfl

/-- C8: the search provider is total and never returns the empty string: with
absent credentials it returns the "not configured" sentinel, on a transport
failure it returns the "search unavailable" message, and on an empty result
set it returns the explicit "No results found." string. -/
theorem search_provider_nonempty_and_fallbacks :
    ∀ (cfg : SearchConfig) (cse : String → Except String (List SearchItem))
      (q e : String),
    0 < (perform_search cfg cse q).length ∧
    perform_search ⟨none, none⟩ cse q = "Search unavailable: Google CSE is not configured." ∧
    ((optTruthy cfg.apiKey && optTruthy cfg.cseId) = true →
      perform_search cfg (fun _ => Except.error e) q = "Search unavailable due to an error.") ∧
    ((optTruthy cfg.apiKey && optTruthy cfg.cseId) = true →
      perform_search cfg (fun _ => Except.ok []) q = "No results found.") := by
  intro cfg cse q e
  refine ⟨?_, rfl, ?_, ?_⟩
  · unfold perform_search
    split
    · decide
    · cases hc : cse q with
      | error er =>
        show 0 < "Search unavailable due to an error.".length
        decide
      | ok items =>
        cases items with
        | nil =>
          show 0 < "No results found.".length
          decide
        | cons a as =>
          have hform : formatResults (a :: as) =
              formatResult 1 a :: (List.enumFrom 2 as).map (fun p => formatResult p.1 p.2) := rfl
          dsimp only
          rw [hform]
          simp only [List.isEmpty_cons]
          exact pyJoin_cons_length_pos "\n" _ _ (formatResult_length_pos 1 a)
  · intro hcred
    simp only [Bool.and_eq_true] at hcred
    obtain ⟨h1, h2⟩ := hcred
    unfold perform_search
    simp [h1, h2]
  · intro hcred
    simp only [Bool.and_eq_true] at hcred
    obtain ⟨h1, h2⟩ := hcred
    unfold perform_search
    simp [h1, h2, formatResults]

/-- C2 (amended): a backend failure before any fragment yields exactly one
error fragment; every chunk is mapped to a fragment (empty chunks get the
fixed fallback, none is skipped); the fragment count is the chunk count plus
one exactly when a failure occurred — so the sequence is empty only when the
backend stream ends with zero chunks and no failure. -/
theorem streaming_invoker_fragment_characterization :
    ∀ (b64 : String → Except String (List Nat)) (ocr : List Nat → String → Option String)
      (cfg : SearchConfig) (cse : String → Except String (List SearchItem))
      (genStream : List ContentPart → StreamResult)
      (q e : String) (att : Option AttachmentDict),
    process_query_streaming b64 ocr cfg cse (fun _ => ⟨[], some e⟩) q att = ["Error: " ++ e] ∧
    process_query_streaming b64 ocr cfg cse genStream q att =
      (genStream (streamingParts b64 ocr cfg cse q att)).chunks.map
        (fun chunk => if optTruthy chunk.text then chunk.text.getD "" else emptyChunkMsg) ++
      (match (genStream (streamingParts b64 ocr cfg cse q att)).failure with
       | some er => ["Error: " ++ er]
       | none => []) ∧
    (process_query_streaming b64 ocr cfg cse genStream q att).length =
      (genStream (streamingParts b64 ocr cfg cse q att)).chunks.length +
      (if (genStream (streamingParts b64 ocr cfg cse q att)).failure.isSome then 1 else 0) := by
  intro b64 ocr cfg cse genStream q e att
  refine ⟨rfl, rfl, ?_⟩
  unfold process_query_streaming
  dsimp only
  rw [List.length_append, List.length_map]
  cases (genStream (streamingParts b64 ocr cfg cse q att)).failure <;> simp

/-- C2 counterexample: a streaming call whose backend iterator completes with
zero chunks and no failure produces zero fragments, refuting "the fragment
sequence has length at least 1 for every streaming call". -/
theorem streaming_empty_success_yields_no_fragments :
    process_query_streaming (fun _ => Except.error "unused") (fun _ _ => none) ⟨none, none⟩
      (fun _ => Except.error "unused") (fun _ => ⟨[], none⟩) "hi" none = ([] : List String) ∧
    (process_query_streaming (fun _ => Except.error "unused") (fun _ _ => none) ⟨none, none⟩
      (fun _ => Except.error "unused") (fun _ => ⟨[], none⟩) "hi" none).length = 0 :=
  ⟨rfl, rfl⟩

/-- A concrete request whose backend stream yields "Hel" then "lo" and ends. -/
def helloLoReq : WsRequest :=
  { raw := "hi", parsed := none,
    b64decode := fun _ => Except.error "unused",
    ocr := fun _ _ => none,
    cse := fun _ => Except.error "unused",
    genStream := fun _ => ⟨[⟨some "Hel"⟩, ⟨some "lo"⟩], none⟩ }

/-- C1: one loop iteration forwards every fragment in production order and
then sends exactly one `"[END]"`; a run of successful requests concatenates
their per-request traces; in the concrete scenario the client receives
exactly "Hel", "lo", "[END]". -/
theorem channel_relays_fragments_in_order_then_end :
    (∀ (cfg : SearchConfig) (req : WsRequest),
      handleWsRequest cfg req =
        process_query_streaming req.b64decode req.ocr cfg req.cse req.genStream
          (parseWsRequest req).1 (parseWsRequest req).2 ++ ["[END]"]) ∧
    (∀ (cfg : SearchConfig) (reqs : List WsRequest),
      wsSession cfg (reqs.map WsEvent.msg) =
        ((reqs.map (fun r => handleWsRequest cfg r)).flatten, false)) ∧
    wsSession ⟨none, none⟩ [WsEvent.msg helloLoReq] = (["Hel", "lo", "[END]"], false) := by
  refine ⟨fun cfg req => rfl, ?_, rfl⟩
  intro cfg reqs
  induction reqs with
  | nil => rfl
  | cons r rs ih => simp [wsSession, ih]

/-- A concrete request whose backend stream yields "Hel" and then raises. -/
def errReq : WsRequest :=
  { raw := "hi", parsed := none,
    b64decode := fun _ => Except.error "unused",
    ocr := fun _ _ => none,
    cse := fun _ => Except.error "unused",
    genStream := fun _ => ⟨[⟨some "Hel"⟩], some "boom"⟩ }

/-- A concrete request whose backend stream yields "ok" and ends. -/
def okReq : WsRequest :=
  { raw := "hi", parsed := none,
    b64decode := fun _ => Except.error "unused",
    ocr := fun _ _ => none,
    cse := fun _ => Except.error "unused",
    genStream := fun _ => ⟨[⟨some "ok"⟩], none⟩ }

/-- C3 counterexample: a failure in the generation stream of the first request
is delivered as an "Error: boom" fragment, is followed by "[END]", does not
close the connection, and the same connection serves the next request —
refuting "the server sends exactly one error message and then closes the
connection, and the connection is not reused". -/
theorem midstream_generation_error_leaves_channel_open :
    wsSession ⟨none, none⟩ [WsEvent.msg errReq, WsEvent.msg okReq] =
      (["Hel", "Error: boom", "[END]", "ok", "[END]"], false) :=
  rfl

/-- C3 (amended): a generation failure during streaming is caught inside the
invoker and shows up as one "Error: <description>" fragment after the already
produced fragments, followed by the "[END]" terminator, with the connection
still serving later requests; only a transport failure escaping the loop makes
the handler send exactly one "Error: <description>" message, close the
connection, and process no further events. -/
theorem generation_vs_transport_error_pathways :
    (∀ (b64 : String → Except String (List Nat)) (ocr : List Nat → String → Option String)
       (cfg : SearchConfig) (cse : String → Except String (List SearchItem))
       (q e : String) (att : Option AttachmentDict) (chunks : List Chunk),
      process_query_streaming b64 ocr cfg cse (fun _ => ⟨chunks, some e⟩) q att =
        chunks.map (fun chunk =>
          if optTruthy chunk.text then chunk.text.getD "" else emptyChunkMsg) ++
        ["Error: " ++ e]) ∧
    (∀ (cfg : SearchConfig) (req : WsRequest) (rest : List WsEvent),
      wsSession cfg (WsEvent.msg req :: rest) =
        (handleWsRequest cfg req ++ (wsSession cfg rest).1, (wsSession cfg rest).2)) ∧
    (∀ (cfg : SearchConfig) (reqs : List WsRequest) (e : String) (rest : List WsEvent),
      wsSession cfg (reqs.map WsEvent.msg ++ WsEvent.transportFailure e :: rest) =
        ((reqs.map (fun r => handleWsRequest cfg r)).flatten ++ ["Error: " ++ e], true)) := by
  refine ⟨fun _ _ _ _ _ _ _ _ => rfl, fun _ _ _ => rfl, ?_⟩
  intro cfg reqs e rest
  induction reqs with
  | nil => rfl
  | cons r rs ih => simp [wsSession, ih]

/-- C5: whatever the attachment, OCR outcome and search decision, the
assembled content sequence starts with the fixed system-instruction part
followed by the user-query part. -/
theorem assembled_content_prefix_invariant :
    ∀ (b64 : String → Except String (List Nat)) (ocr : List Nat → String → Option String)
      (cfg : SearchConfig) (cse : String → Except String (List SearchItem))
      (q : String) (att : Option AttachmentDict),
    (_build_content_parts b64 ocr q att).take 2 =
      [ContentPart.text systemInstruction, ContentPart.text ("User query: " ++ q)] ∧
    (streamingParts b64 ocr cfg cse q att).take 2 =
      [ContentPart.text systemInstruction, ContentPart.text ("User query: " ++ q)] ∧
    (nonStreamingParts b64 ocr cfg cse q att).take 2 =
      [ContentPart.text systemInstruction, ContentPart.text ("User query: " ++ q)] := by
  intro b64 ocr cfg cse q att
  obtain ⟨rest, hrest⟩ := build_parts_shape b64 ocr q att
  have h1 : (_build_content_parts b64 ocr q att).take 2 =
      [ContentPart.text systemInstruction, ContentPart.text ("User query: " ++ q)] := by
    rw [hrest]
    rfl
  have h2 : (streamingParts b64 ocr cfg cse q att).take 2 =
      [ContentPart.text systemInstruction, ContentPart.text ("User query: " ++ q)] := by
    unfold streamingParts
    dsimp only
    split
    · rw [hrest]
      rfl
    · exact h1
  have h3 : (nonStreamingParts b64 ocr cfg cse q att).take 2 =
      [ContentPart.text systemInstruction, ContentPart.text ("User query: " ++ q)] := by
    unfold nonStreamingParts
    dsimp only
    split
    · rw [hrest]
      rfl
    · exact h1
  exact ⟨h1, h2, h3⟩

/-- Whether a content part is an inline-binary part. -/
def isInlinePart : ContentPart → Bool
  | ContentPart.inlineData _ _ => true
  | ContentPart.text _ => false

/-- A string starting with `pre` differs from a string whose first character
differs from the first character of `pre`. -/
theorem append_ne_of_head_ne (pre q t : String)
    (hne : pre.data.take 1 ≠ t.data.take 1) (hlen : 1 ≤ pre.data.length) :
    pre ++ q ≠ t := by
  intro h
  apply hne
  have h2 : (pre ++ q).data = t.data := by rw [h]
  rw [String.data_append] at h2
  have h3 := congrArg (List.take 1) h2
  rwa [List.take_append_eq_append_take, Nat.sub_eq_zero_of_le hlen,
    List.take_zero, List.append_nil] at h3

/-- If the OCR capability never returns a non-empty text, the assembled
content never carries the OCR marker part. -/
theorem ocr_marker_not_mem (b64 : String → Except String (List Nat))
    (ocr : List Nat → String → Option String) (q : String) (att : Option AttachmentDict)
    (hocr : ∀ r m, optTruthy (ocr r m) = false) :
    ContentPart.text ocrPrefixText ∉ _build_content_parts b64 ocr q att := by
  have huq : ContentPart.text ("User query: " ++ q) ≠ ContentPart.text ocrPrefixText := by
    intro h
    exact append_ne_of_head_ne "User query: " q ocrPrefixText (by decide) (by decide)
      (by injection h)
  have hsys : ContentPart.text systemInstruction ≠ ContentPart.text ocrPrefixText := by
    decide
  have hcon : ContentPart.text considerText ≠ ContentPart.text ocrPrefixText := by
    decide
  have hbase : ContentPart.text ocrPrefixText ∉
      [ContentPart.text systemInstruction, ContentPart.text ("User query: " ++ q)] := by
    intro hmem
    rcases List.mem_pair.mp hmem with h | h
    · exact hsys h.symm
    · exact huq h.symm
  cases att with
  | none =>
    intro hmem
    exact hbase hmem
  | some a =>
    by_cases hg : (optTruthy a.data && optTruthy a.mime) = true
    · by_cases hs : (strStartsWith (a.data.getD "") "data:" &&
          strContains (a.data.getD "") ";base64,") = true
      · cases hb : b64 (afterFirstComma (a.data.getD "")) with
        | error e =>
          rw [build_parts_undecoded b64 ocr q a (Or.inr (Or.inr ⟨e, hb⟩))]
          exact hbase
        | ok raw =>
          rw [build_parts_decoded b64 ocr q a raw hg hs hb]
          have hmid : (match ocr raw (a.mime.getD "") with
              | some t => if strTruthy t then
                  [ContentPart.text ocrPrefixText, ContentPart.text (pyTake t 8000)]
                else ([] : List ContentPart)
              | none => ([] : List ContentPart)) = [] := by
            cases ho : ocr raw (a.mime.getD "") with
            | none => rfl
            | some t =>
              have := hocr raw (a.mime.getD "")
              rw [ho] at this
              simp only [optTruthy] at this
              simp [this]
          rw [hmid]
          intro hmem
          rw [List.append_nil] at hmem
          rcases List.mem_append.mp hmem with h3 | h3
          · rcases List.mem_cons.mp h3 with h4 | h4
            · exact hsys h4.symm
            · rcases List.mem_cons.mp h4 with h5 | h5
              · exact huq h5.symm
              · rcases List.mem_cons.mp h5 with h6 | h6
                · exact ContentPart.noConfusion h6
                · exact List.not_mem_nil _ h6
          · exact hcon (List.mem_singleton.mp h3).symm
      · rw [build_parts_undecoded b64 ocr q a
          (Or.inr (Or.inl (Bool.eq_false_iff.mpr hs)))]
        exact hbase
    · rw [build_parts_undecoded b64 ocr q a (Or.inl (Bool.eq_false_iff.mpr hg))]
      exact hbase

/-- The attachment of the C6 counterexample: a well-formed data-URI payload. -/
def noOcrAttachment : AttachmentDict :=
  { data := some "data:image/png;base64,AAAA", mime := some "image/png" }

/-- A base64 decoder stub that decodes every payload to one zero byte. -/
def okB64 : String → Except String (List Nat) := fun _ => Except.ok [0]

/-- An OCR stub that extracts nothing. -/
def noneOcr : List Nat → String → Option String := fun _ _ => none

set_option maxRecDepth 8192 in
/-- C6 counterexample: with a decodable attachment whose OCR yields nothing,
the assembled sequence still contains the consider-the-attachment instruction
part, refuting "if OCR produced no non-empty text there is ... no
consider-the-attachment instruction part". -/
theorem consider_part_present_without_ocr_text :
    _build_content_parts okB64 noneOcr "q" (some noOcrAttachment) =
      [ContentPart.text systemInstruction, ContentPart.text ("User query: " ++ "q"),
       ContentPart.inlineData "image/png" [0], ContentPart.text considerText] ∧
    noneOcr [0] "image/png" = none ∧
    ContentPart.text considerText ∈ _build_content_parts okB64 noneOcr "q" (some noOcrAttachment) := by
  refine ⟨by decide, rfl, by decide⟩

/-- C6 (amended): each conditional part is omitted when its precondition is
unmet — no inline-binary part without a data-URI payload, no OCR marker part
without non-empty OCR text, no search-results part without a search decision —
but the consider-the-attachment instruction part is appended whenever the
attachment decodes, regardless of the OCR outcome. -/
theorem conditional_parts_omitted :
    ∀ (b64 : String → Except String (List Nat)) (ocr : List Nat → String → Option String)
      (cfg : SearchConfig) (cse : String → Except String (List SearchItem))
      (q : String) (a : AttachmentDict) (att : Option AttachmentDict) (raw : List Nat),
    ((strStartsWith (a.data.getD "") "data:" &&
        strContains (a.data.getD "") ";base64,") = false →
      ∀ p ∈ _build_content_parts b64 ocr q (some a), isInlinePart p = false) ∧
    ((∀ r m, optTruthy (ocr r m) = false) →
      ContentPart.text ocrPrefixText ∉ _build_content_parts b64 ocr q att) ∧
    (needsSearch q = false →
      streamingParts b64 ocr cfg cse q att = _build_content_parts b64 ocr q att ∧
      nonStreamingParts b64 ocr cfg cse q att = _build_content_parts b64 ocr q att) ∧
    ((optTruthy a.data && optTruthy a.mime) = true →
      (strStartsWith (a.data.getD "") "data:" &&
        strContains (a.data.getD "") ";base64,") = true →
      b64 (afterFirstComma (a.data.getD "")) = Except.ok raw →
      ContentPart.text considerText ∈ _build_content_parts b64 ocr q (some a)) := by
  intro b64 ocr cfg cse q a att raw
  refine ⟨?_, ocr_marker_not_mem b64 ocr q att, ?_, ?_⟩
  · intro hshape p hp
    rw [build_parts_undecoded b64 ocr q a (Or.inr (Or.inl hshape))] at hp
    rcases List.mem_pair.mp hp with rfl | rfl <;> rfl
  · intro hq
    unfold needsSearch at hq
    constructor
    · unfold streamingParts
      dsimp only
      rw [hq]
      rfl
    · unfold nonStreamingParts
      dsimp only
      rw [hq]
      rfl
  · intro hg hshape hb
    rw [build_parts_decoded b64 ocr q a raw hg hshape hb]
    simp

/-- C9: when the attachment decodes and OCR returns non-empty text `t`, the
OCR text part is exactly the first 8000 characters of `t`: its length is
`min 8000 t.length`, so text longer than the bound is cut to exactly 8000
characters and text within the bound is included unchanged. -/
theorem ocr_text_truncated_to_bound
    (b64 : String → Except String (List Nat)) (ocr : List Nat → String → Option String)
    (q : String) (a : AttachmentDict) (raw : List Nat) (t : String)
    (hg : (optTruthy a.data && optTruthy a.mime) = true)
    (hshape : (strStartsWith (a.data.getD "") "data:" &&
               strContains (a.data.getD "") ";base64,") = true)
    (hb : b64 (afterFirstComma (a.data.getD "")) = Except.ok raw)
    (ho : ocr raw (a.mime.getD "") = some t)
    (ht : strTruthy t = true) :
    _build_content_parts b64 ocr q (some a) =
      [ContentPart.text systemInstruction, ContentPart.text ("User query: " ++ q),
       ContentPart.inlineData (a.mime.getD "") raw, ContentPart.text ocrPrefixText,
       ContentPart.text (pyTake t 8000), ContentPart.text considerText] ∧
    (pyTake t 8000).length = min 8000 t.length ∧
    (8000 < t.length → (pyTake t 8000).length = 8000) ∧
    (t.length ≤ 8000 → pyTake t 8000 = t) := by
  have hmin : (pyTake t 8000).length = min 8000 t.length := by
    show (t.data.take 8000).length = min 8000 t.data.length
    exact List.length_take 8000 t.data
  refine ⟨?_, hmin, ?_, ?_⟩
  · rw [build_parts_decoded b64 ocr q a raw hg hshape hb, ho]
    simp [ht]
  · intro hgt
    rw [hmin]
    omega
  · intro hle
    show String.mk (t.data.take 8000) = t
    rw [List.take_of_length_le hle]

/-- C9 witness: the theorem applied at a concrete decodable attachment with
OCR text "hello world". -/
theorem ocr_text_truncated_to_bound_witness :
    _build_content_parts (fun _ => Except.ok [65, 66, 67]) (fun _ _ => some "hello world") "hi"
        (some ⟨some "data:text/plain;base64,QUJD", some "text/plain"⟩) =
      [ContentPart.text systemInstruction, ContentPart.text ("User query: " ++ "hi"),
       ContentPart.inlineData "text/plain" [65, 66, 67], ContentPart.text ocrPrefixText,
       ContentPart.text (pyTake "hello world" 8000), ContentPart.text considerText] ∧
    (pyTake "hello world" 8000).length = min 8000 "hello world".length ∧
    (8000 < "hello world".length → (pyTake "hello world" 8000).length = 8000) ∧
    ("hello world".length ≤ 8000 → pyTake "hello world" 8000 = "hello world") :=
  ocr_text_truncated_to_bound (fun _ => Except.ok [65, 66, 67])
    (fun _ _ => some "hello world") "hi"
    ⟨some "data:text/plain;base64,QUJD", some "text/plain"⟩ [65, 66, 67] "hello world"
    (by decide) (by decide) rfl rfl (by decide)

end AIAgent
